import Mathlib

/-!
Shallow embedding of the InfoGen generation core (src/name_generator.py and
src/vcf_generator.py).  Randomness is modelled by explicit parameters: every
call to random.choice receives an arbitrary index (reduced modulo the list
length), every random digit draw receives an arbitrary natural (reduced
modulo 10), and the comparison random.random() < 0.7 is modelled by its
boolean outcome.  Python exceptions are modelled with Except.  The float
expression computing the progress percentage is modelled with exact IEEE-754
binary64 semantics: correctly rounded division and multiplication on 53-bit
mantissas, round to nearest, ties to even, as dyadic rationals.
-/

namespace InfoGen

/-! ## PhoneGenerator data (PhoneGenerator.__init__) -/

/-- self.prefixes: the full prefix list, in source order. -/
def prefixes : List String := [
  "134", "135", "136", "137", "138", "139",
  "150", "151", "152", "157", "158", "159",
  "182", "183", "184", "187", "188",
  "195", "197", "198",
  "147", "1440",
  "130", "131", "132",
  "145", "155", "156",
  "166", "175", "176",
  "185", "186",
  "133", "149",
  "153", "173", "174",
  "177", "180", "181", "189",
  "190", "191", "193", "199",
  "170", "171", "162" ]

/-- self.mobile_prefixes. -/
def mobile_prefixes : List String := [
  "134", "135", "136", "137", "138", "139",
  "150", "151", "152", "157", "158", "159",
  "182", "183", "184", "187", "188",
  "195", "197", "198", "147" ]

/-- self.unicom_prefixes. -/
def unicom_prefixes : List String := [
  "130", "131", "132", "145", "155", "156",
  "166", "175", "176", "185", "186" ]

/-- self.telecom_prefixes. -/
def telecom_prefixes : List String := [
  "133", "149", "153", "173", "174",
  "177", "180", "181", "189",
  "190", "191", "193", "199" ]

/-- self.virtual_prefixes. -/
def virtual_prefixes : List String := [
  "170", "171", "162" ]

/-! ## PhoneGenerator operations -/

/-- random.choice(l), the random draw being an arbitrary index k reduced
modulo the list length. -/
def randomChoice (l : List String) (k : Nat) : String := l.getD (k % l.length) ""

/-- Python truthiness of an optional string argument: None and the empty
string are falsy, every other string is truthy. -/
def pyTruthy : Option String → Bool
  | none => false
  | some s => s != ""

/-- str(random.randint(0, 9)) as a single character, the draw being an
arbitrary natural reduced modulo 10. -/
def digitChar (n : Nat) : Char :=
  match n % 10 with
  | 0 => '0' | 1 => '1' | 2 => '2' | 3 => '3' | 4 => '4'
  | 5 => '5' | 6 => '6' | 7 => '7' | 8 => '8' | _ => '9'

/-- The join of remaining_digits random digits in
PhoneGenerator.generate_phone_number. -/
def randomSuffix (ds : Nat → Nat) (len : Nat) : String :=
  String.mk ((List.range len).map (fun j => digitChar (ds j)))

/-- The prefix-selection block of PhoneGenerator.generate_phone_number:
an explicitly given truthy prefix must be in self.prefixes (else ValueError),
otherwise the carrier string selects the list drawn from. -/
def choosePfx (pfx carrier : Option String) (pick : Nat) : Except String String :=
  if pyTruthy pfx then
    let p := pfx.getD ""
    if p ∈ prefixes then Except.ok p
    else Except.error ("不支持的号段前缀: " ++ p)
  else if carrier = some "mobile" then Except.ok (randomChoice mobile_prefixes pick)
  else if carrier = some "unicom" then Except.ok (randomChoice unicom_prefixes pick)
  else if carrier = some "telecom" then Except.ok (randomChoice telecom_prefixes pick)
  else if carrier = some "virtual" then Except.ok (randomChoice virtual_prefixes pick)
  else Except.ok (randomChoice prefixes pick)

/-- PhoneGenerator.generate_phone_number: chosen prefix followed by
11 - len(chosen_prefix) random digits. -/
def generate_phone_number (pfx carrier : Option String) (pick : Nat) (ds : Nat → Nat) :
    Except String String :=
  match choosePfx pfx carrier pick with
  | Except.error e => Except.error e
  | Except.ok chosen => Except.ok (chosen ++ randomSuffix ds (11 - chosen.length))

/-- The while loop of PhoneGenerator.generate_phone_numbers.  gen is the
stream of outcomes of self.generate_phone_number(prefix, carrier), indexed by
attempt number; fuel is the remaining attempt budget (max_attempts - attempts)
and calls counts the attempts made so far.  The accumulator is kept reversed;
membership in it coincides with membership in the Python generated_set, which
always holds exactly the elements of phone_numbers.  Returns the produced list
together with the number of attempts (= calls to the single-number
generator). -/
def genLoop (gen : Nat → String) (count : Nat) (unique : Bool) :
    Nat → Nat → List String → List String × Nat
  | 0, calls, acc => (acc.reverse, calls)
  | Nat.succ fuel, calls, acc =>
    if acc.length < count then
      let phone := gen calls
      let acc2 := if unique ∧ phone ∈ acc then acc else phone :: acc
      genLoop gen count unique fuel (calls + 1) acc2
    else (acc.reverse, calls)

/-- PhoneGenerator.generate_phone_numbers: count <= 0 yields [], otherwise
run the retry loop with max_attempts = count * 10. -/
def generate_phone_numbers (gen : Nat → String) (count : Nat) (unique : Bool) :
    List String × Nat :=
  if count = 0 then ([], 0)
  else genLoop gen count unique (count * 10) 0 []

/-- PhoneGenerator.get_carrier_name: classify by the first three characters,
checking the carrier lists in the fixed order mobile, unicom, telecom,
virtual. -/
def get_carrier_name (phone_number : String) : String :=
  if phone_number = "" ∨ phone_number.length < 3 then "未知"
  else
    if phone_number.take 3 ∈ mobile_prefixes then "中国移动"
    else if phone_number.take 3 ∈ unicom_prefixes then "中国联通"
    else if phone_number.take 3 ∈ telecom_prefixes then "中国电信"
    else if phone_number.take 3 ∈ virtual_prefixes then "虚拟运营商"
    else "未知运营商"

/-- The four carrier categories accepted by the carrier argument. -/
inductive Carrier
  | mobile | unicom | telecom | virtual
deriving DecidableEq

/-- The carrier argument string passed to generate_phone_number. -/
def carrierArg : Carrier → String
  | Carrier.mobile => "mobile"
  | Carrier.unicom => "unicom"
  | Carrier.telecom => "telecom"
  | Carrier.virtual => "virtual"

/-- The per-carrier prefix list. -/
def carrierPfxList : Carrier → List String
  | Carrier.mobile => mobile_prefixes
  | Carrier.unicom => unicom_prefixes
  | Carrier.telecom => telecom_prefixes
  | Carrier.virtual => virtual_prefixes

/-- The display name returned by get_carrier_name for each carrier. -/
def carrierDisplayName : Carrier → String
  | Carrier.mobile => "中国移动"
  | Carrier.unicom => "中国联通"
  | Carrier.telecom => "中国电信"
  | Carrier.virtual => "虚拟运营商"

/-- How many of the four per-carrier lists contain a given prefix. -/
def carrierListsContaining (p : String) : Nat :=
  (if p ∈ mobile_prefixes then 1 else 0) + (if p ∈ unicom_prefixes then 1 else 0) +
  (if p ∈ telecom_prefixes then 1 else 0) + (if p ∈ virtual_prefixes then 1 else 0)

/-! ## NameGenerator data (NameGenerator.__init__) -/

/-- self.boy2: male double-character given names. -/
def boy2 : List String := [
  "煜洋", "雨泽", "越泽", "之玉", "锦程", "修杰", "烨伟", "尔曼", "立辉", "致远", "天思", "友绿", "聪健", "修洁", "平灵",
  "源智", "烨华", "振家", "越彬", "子轩", "伟宸", "晋鹏", "觅松", "海亦", "雨珍", "浩宇", "嘉熙", "志泽", "苑博", "念波",
  "峻熙", "俊驰", "聪展", "南松", "黎昕", "谷波", "凝海", "靖易", "渊思", "煜祺", "乐驹", "风华", "睿渊", "博超", "天磊",
  "夜白", "初晴", "瑾瑜", "鹏飞", "弘文", "伟泽", "迎松", "雨泽", "白易", "远航", "晓啸", "智宸", "晓博", "靖琪", "十八",
  "君浩", "绍辉", "天德", "半山", "一江", "皓轩", "子默", "青寒", "问筠", "旭尧", "冷之", "天宇", "正豪", "文博", "明辉",
  "子骞", "灵竹", "三德", "连虎", "十三", "天川", "一德", "严青", "擎苍", "思远", "嘉懿", "鸿煊", "晟睿", "鸿涛", "孤风",
  "青文", "浩然", "明杰", "若风", "广山", "若之", "浩阑", "南风", "浩轩", "博涛", "烨霖", "天佑", "半雪", "文轩", "明轩",
  "鹏煊", "沛山", "道天", "千筹", "远望", "乘风", "道之", "乘云", "天抒", "士萧", "文龙", "一鸣", "半仙", "远锋", "元正",
  "断秋", "远山", "飞扬", "一笑", "天问", "浩天", "沧海", "安康", "安平", "安然", "安晏", "安宜", "安志", "波鸿", "博明",
  "博雅", "博易", "博远", "才哲", "才俊", "成和", "承安", "承平", "承宣", "承允", "承泽", "承志", "飞虎", "飞龙", "飞羽",
  "涵煦", "昊苍", "昊空", "昊然", "昊天", "宏达", "宏恺", "景辉", "景明", "景山", "乐池", "天逸", "伟志", "文宣", "文彦",
  "向晨", "向阳", "星阑", "阳波", "逸仙", "逸明", "正奇", "子瑜", "玮涛", "庭霖", "弘智", "品川", "钰宸", "子尘", "润楚",
  "元云", "杰弘", "杰棠", "智语", "绍若", "贤权", "禹哲", "纪德", "轩军", "楠佑", "鸿华", "峻莱", "裕韬", "寒淮", "烨若",
  "畅孝", "雨泰", "绍若", "庆韬", "浩慕", "恩晨", "佑晨", "翰俊", "聪铭", "瑜睿", "应泰", "为城", "炫杰", "竟锋", "亦韵",
  "若杰", "航苏", "俊建", "玮锋", "晔苏", "桦君", "信煊", "益正", "惠坪", "炳城", "川健", "煊博", "瀚强", "亦健", "卓逸",
  "仲智", "旭柳", "易扬", "浩淼", "若星", "书润", "文博", "圣霖", "濡温", "生朋", "永润", "温泰", "言佑", "乐凡", "均语",
  "卓锦", "炜泽", "奕辰", "韵熙", "汇润", "润庭", "伟俊", "立圣", "东子", "轩宏", "哲聪", "庭苍", "亮涛", "松清", "绍校",
  "峻熙", "立诚", "弘文", "熠彤", "鸿煊", "哲瀚", "博涛", "伟泽", "煜城", "鹤轩", "昊天", "思聪", "展鹏", "笑愚", "志强",
  "炫明", "雪松", "思源", "智渊", "思淼", "晓啸", "天宇", "浩然", "文轩", "鹭洋", "振家", "乐驹", "晓博", "文博", "昊焱",
  "立果", "金鑫", "锦程", "嘉熙", "鹏飞", "子默", "思远", "浩轩", "语堂", "聪健", "炎彬", "子骞", "君浩", "博超", "昊强",
  "鑫磊", "晋鹏", "雨泽", "弘文", "瑾瑜", "郜坤", "哲羽", "意致", "瑾靖", "易琦", "光济", "玄奕", "骞尧", "清嘉", "冷睿",
  "永丰", "夭锦", "辰哲", "承颜", "习凛", "堇文", "鹏云", "华茂", "永以", "澎湃", "康伯", "玉韬", "云霆", "雨伯", "友健",
  "维峰", "沺誉", "安陵", "君皓", "志勇", "茂材", "运杰", "苑博", "佳炎", "鸿月", "加答", "涛卓", "康顺", "凯定", "城可",
  "世砚", "博良", "俊宇", "睿书", "泓佳", "书鸣", "辉鑫", "语智", "艺智", "思涵", "呈岚", "天骐", "翰睿", "哲涛", "凯霆",
  "君皓", "言陌", "浩志", "勇笠", "玮翔", "志宇", "雄浚", "祖弘", "宏颢", "雨辰", "诗颢" ]

/-- self.xing: the surname table. -/
def xing : List String := [
  "赵", "钱", "孙", "李", "周", "吴", "郑", "王", "冯", "陈", "褚", "卫", "蒋", "沈", "韩", "杨", "朱", "秦",
  "尤", "许", "何", "吕", "施", "张", "孔", "曹", "严", "华", "金", "魏", "陶", "姜", "戚", "谢", "邹", "喻",
  "柏", "水", "窦", "章", "云", "苏", "潘", "葛", "奚", "范", "彭", "郎", "鲁", "韦", "昌", "马", "苗", "凤",
  "花", "方", "任", "袁", "柳", "鲍", "史", "唐", "费", "薛", "雷", "贺", "倪", "汤", "滕", "殷", "罗", "毕",
  "郝", "安", "常", "傅", "卞", "齐", "元", "顾", "孟", "平", "黄", "穆", "萧", "尹", "姚", "邵", "湛", "汪",
  "祁", "毛", "狄", "米", "伏", "成", "戴", "谈", "宋", "茅", "庞", "熊", "纪", "舒", "屈", "项", "祝", "董",
  "梁", "杜", "阮", "蓝", "闵", "季", "贾", "路", "娄", "江", "童", "颜", "郭", "梅", "盛", "林", "钟", "徐",
  "邱", "骆", "高", "夏", "蔡", "田", "樊", "胡", "凌", "霍", "虞", "万", "支", "柯", "管", "卢", "莫", "柯",
  "房", "裘", "缪", "解", "应", "宗", "丁", "宣", "邓", "单", "杭", "洪", "包", "诸", "左", "石", "崔", "吉",
  "龚", "程", "嵇", "邢", "裴", "陆", "荣", "翁", "荀", "于", "惠", "甄", "曲", "封", "储", "仲", "伊", "宁",
  "仇", "甘", "武", "符", "刘", "景", "詹", "龙", "叶", "幸", "司", "黎", "溥", "印", "怀", "蒲", "邰", "从",
  "索", "赖", "卓", "屠", "池", "乔", "胥", "闻", "莘", "翟", "谭", "贡", "劳", "逄", "姬", "申", "扶", "堵",
  "冉", "宰", "雍", "桑", "寿", "通", "燕", "浦", "尚", "农", "温", "别", "庄", "晏", "柴", "瞿", "阎", "连",
  "习", "容", "向", "古", "易", "廖", "庾", "终", "步", "都", "耿", "满", "弘", "匡", "国", "文", "寇", "广",
  "禄", "阙", "东", "欧", "利", "师", "巩", "聂", "关", "荆", "红", "游", "竺", "司马", "上官", "欧阳", "夏侯",
  "诸葛", "东方", "赫连", "皇甫", "尉迟", "公羊", "澹台", "公冶", "宗政", "濮阳", "淳于", "单于", "太叔", "申屠", "公孙",
  "仲孙", "轩辕", "令狐", "宇文", "长孙", "慕容", "司徒", "司空", "拓拔" ]

/-- self.girl2: female double-character given names. -/
def girl2 : List String := [
  "紫萱", "紫霜", "紫菱", "紫蓝", "紫翠", "紫安", "芷容", "芷巧", "芷卉", "之桃", "元霜", "语雪", "语蓉", "语琴", "语芙",
  "语蝶", "雨梅", "雨莲", "雨兰", "又菡", "映萱", "映安", "忆雪", "雅彤", "雪瑶", "雪卉", "晓夏", "向梦", "香萱", "香岚",
  "惜雪", "思菱", "水瑶", "诗桃", "山菡", "若菱", "青曼", "千柔", "绮梅", "凝雁", "凝安", "妙之", "凌波", "寄琴", "涵易",
  "涵菱", "含烟", "曼冬", "灵珊", "映菡", "易真", "小萱", "怜南", "书瑶", "慕晴", "半烟", "翠桃", "向真", "晓瑶", "香菱",
  "凡霜", "晓霜", "芷蝶", "之云", "寄翠", "涵菡", "念薇", "灵凡", "冰夏", "绮晴", "碧琴", "以寒", "梦绾", "禾霓", "落柔",
  "恬栖", "以蓝", "星楚", "晚棠", "乐薇", "云毓", "静昀", "洛一", "馨雅", "芊昔", "沐颜", "清墨", "意羡", "禾凝", "黎思",
  "锦惜", "北茉", "清筱", "青玥", "可星", "芝恬", "昕甜", "禾婉", "慕唯", "唯兮", "歆一", "佳念", "晚柠", "初恩", "乐晗",
  "佳觅", "初语", "苏郁", "知宛", "意暄", "安诺", "可夏", "予希", "木冉", "优游", "伊依", "倾清", "心歆", "颖恩", "楚瑶",
  "如一", "沐心", "子沛", "婷秀", "芳凝", "洛颜", "思璐", "郡一", "向妙", "想蓉", "待臻", "姝美", "蓉柳", "溪颜", "璞诗",
  "知韦", "之寒", "蓉珊", "尔毓", "诗睿", "诗钰", "念汐", "恬懿", "和佩", "芒可", "靖柳", "欣碧", "婧媛", "芸霞", "子茗",
  "梦琳", "琳姿", "寄影", "若嫣", "艺珂", "素琳", "淑云", "茜涵", "莹云", "清媛", "思怡", "待晚", "绮晴", "夏婷", "熙瑾",
  "玉珍", "语彤", "聪怡", "善蕊", "菀柠", "颖菲", "君雨", "柳如", "欣静", "怡岚", "芳睿", "语淑", "慧偲", "半槐", "娥菲",
  "余芸", "婉吟", "媚鸿", "听薇", "恬懿", "琳娜", "思妤", "双芸", "梓欣", "乐巧", "宁敏", "逸恬", "婷颜", "羽莹", "曼溪",
  "思璎", "梦淑", "映嘉", "天亦", "映凝", "曦薇", "泱祺", "艳蕊", "壁煊", "心怡", "茉涵", "熙柔", "玥芙", "倚真", "雅惠",
  "千羽", "思雅", "希柠", "辰柚", "亦橙", "伊桃", "南柚", "蕉礼", "橙美", "宛桔", "皙恬", "锦芊", "栀萌", "亦攸", "皙宁",
  "舒淳", "以葵", "伊湉", "司纯", "稚京", "奈笙", "西棠", "今安", "晏乔", "舒然", "慕倾", "玖鸢", "思莞", "紫茉", "珑琪",
  "冉峤", "凝初", "南嫣", "知潼", "奕北", "桑宁", "禾茉", "昕言", "念一", "希雅", "伊诺", "婉柠", "岁穗", "苏酥", "诗施",
  "声笙", "芊澄", "梨珂", "晞悦", "芮柒", "南星", "苡沫", "鹿绫", "楚奈", "芊凛", "婉宁", "安禾", "舒言", "芮瑶", "艺涵",
  "恬雨", "清颜", "乔仪", "幼沅", "简心", "宁希", "婧恬", "黎念", "灵淼", "含卿", "兮虞", "缘珞", "依莹", "玥冰", "谷梓",
  "南芊", "筱茵", "甜亦", "佳知", "惜珞", "惜灵", "傲晴", "若琼", "晴岚", "诗淇", "语兰", "傲龄", "知薇", "晓汐", "萌知",
  "含蓓", "安冉", "梓紫", "璇知", "冰晴", "汐梓", "静若", "诗云", "紫知", "紫丝", "觅甜", "奕芊", "倩知", "笑珞", "万姝",
  "初瑶", "妍依", "碧希", "晓蓓", "冉娇", "笑龄", "以兮", "兮筱", "雨甯", "妤华", "冰蓉", "沁蓉", "万奕", "虞兰", "静笛",
  "媱雅", "黛绿", "水静", "水妍", "语蕊", "欣蓉", "妙馨", "龄蓉", "紫莎", "婧琳", "甜晴", "静芙", "恬娣", "晓倩", "熙萱",
  "冉清", "歆瑜", "黛颖", "婧芷", "姗梵", "夏蓉", "菲悦", "依龄", "寻双" ]

/-- self.boy1: male single-character given names. -/
def boy1 : List String := [
  "宇", "翔", "飞", "雄", "帅", "涛", "强", "斌", "昊", "伟", "泽", "峰", "博", "德", "荣", "辉", "俊", "志",
  "勇", "琪", "杰", "洋", "瑞", "奇", "鸿", "浩", "宏", "华", "东", "光", "辰", "丰", "栋", "昌", "朋", "坚",
  "智", "聪", "亮", "正", "明", "诚", "永", "联", "瑜", "雷", "威", "敏", "乐", "信", "柏", "佳", "晋", "育",
  "立", "祥", "学", "豪", "仁", "友" ]

/-- self.girl1: female single-character given names. -/
def girl1 : List String := [
  "美", "娜", "秀", "雯", "蕾", "洁", "思", "慧", "心", "涵", "静", "英", "晓", "琳", "珊", "莉", "佳", "婷",
  "璐", "晨", "安", "包", "贝", "冰", "蓓", "珂", "柏", "琳", "菲", "怡", "娜", "心", "洁", "梓", "瑶", "珊",
  "艾", "诗", "璐", "倩", "苏", "雯", "婧", "秀", "慧", "彤", "媛", "美", "晶", "琪", "云", "萍", "蕾", "莉",
  "莹", "薇", "楠", "楚", "佳", "爽", "卓", "格", "斌", "羽", "茜", "婷", "琦", "绮", "燕", "张", "青", "红",
  "翠", "帆", "离", "莲", "宜", "园", "冬", "霜" ]

/-! ## NameGenerator operations -/

/-- The random draws consumed by one name generation: the randint(1, 2) coin
used by the "all" gender (an arbitrary natural, reduced to 1 or 2), the
random.choice index into the surname table, the outcome of
random.random() < 0.7, and the random.choice index into the given-name
table. -/
structure NameDraw where
  genderCoin : Nat
  surnameIdx : Nat
  useDouble : Bool
  givenIdx : Nat

/-- NameGenerator.make_boy_name: surname plus a double-character given name
with probability 0.7, a single-character one otherwise. -/
def make_boy_name (d : NameDraw) : String :=
  let first := randomChoice xing d.surnameIdx
  let choice := if d.useDouble then 1 else 2
  let second := if choice = 1 then randomChoice boy2 d.givenIdx
                else randomChoice boy1 d.givenIdx
  first ++ second

/-- NameGenerator.make_girl_name. -/
def make_girl_name (d : NameDraw) : String :=
  let first := randomChoice xing d.surnameIdx
  let choice := if d.useDouble then 1 else 2
  let second := if choice = 1 then randomChoice girl2 d.givenIdx
                else randomChoice girl1 d.givenIdx
  first ++ second

/-- One iteration of the NameGenerator.generate_names loop: which name, if
any, is appended for the given gender string (randint(1, 2) modelled as
genderCoin % 2 + 1).  An unrecognised gender appends nothing. -/
def nameFor (gender : String) (d : NameDraw) : Option String :=
  if gender = "boy" then some (make_boy_name d)
  else if gender = "girl" then some (make_girl_name d)
  else if gender = "all" then
    some (if d.genderCoin % 2 + 1 = 1 then make_boy_name d else make_girl_name d)
  else none

/-- NameGenerator.generate_names: num <= 0 yields [], otherwise the loop
appends one name per iteration for a recognised gender and nothing for an
unrecognised one. -/
def generate_names (num : Nat) (gender : String) (draws : Nat → NameDraw) : List String :=
  if num = 0 then []
  else ((List.range num).map (fun k => nameFor gender (draws k))).reduceOption

/-! ## VCFGenerator (src/vcf_generator.py) -/

/-- VCFGenerator.create_contact_vcf_entry.  The f-string is embedded as the
concatenation of its literal chunks and interpolations; name[0] on the empty
string raises IndexError, modelled as an error value. -/
def create_contact_vcf_entry (name phone : String) : Except String String :=
  if name = "" then Except.error "IndexError: string index out of range"
  else
    let formatted_phone :=
      if phone.length = 11 then
        phone.take 3 ++ " " ++ (phone.drop 3).take 4 ++ " " ++ phone.drop 7
      else phone
    Except.ok ("BEGIN:VCARD\nVERSION:3.0\nFN:" ++ name ++ "\nN:" ++ name.take 1 ++ ";" ++
      name.drop 1 ++ ";;;\nTEL;CELL:" ++ phone ++ "\nTEL;CELL;TYPE=VOICE:" ++ formatted_phone ++
      "\nEND:VCARD\n")

/-- The fixed vCard 3.0 template as the spec describes it, line by line: the
N: field is split as first-character-of-name;rest-of-name;;; and, when the
phone has exactly 11 characters, the TYPE=VOICE line carries the phone
grouped as 3-4-4 digits separated by spaces. -/
def vcfEntryTemplate (name phone : String) : String :=
  "BEGIN:VCARD\n" ++
  "VERSION:3.0\n" ++
  "FN:" ++ name ++ "\n" ++
  "N:" ++ name.take 1 ++ ";" ++ name.drop 1 ++ ";;;\n" ++
  "TEL;CELL:" ++ phone ++ "\n" ++
  "TEL;CELL;TYPE=VOICE:" ++
    (if phone.length = 11 then
      phone.take 3 ++ " " ++ (phone.drop 3).take 4 ++ " " ++ phone.drop 7
     else phone) ++ "\n" ++
  "END:VCARD\n"

/-- The batch result dictionary returned by VCFGenerator.generate_vcf_files.
The early directory-creation-failure return carries only success, error and
files_created in Python; the remaining fields are defaulted here. -/
structure BatchResult where
  success : Bool
  files_created : Nat
  files_failed : Nat
  created_files : List String
  failed_files : List String
  output_directory : String
  total_contacts : Nat
  error : Option String
deriving DecidableEq, Repr

/-- ⌊log2 n⌋ for n ≥ 1, by structural recursion on explicit fuel. -/
def log2fuel : Nat → Nat → Nat
  | 0, _ => 0
  | fuel + 1, n => if 2 ≤ n then log2fuel fuel (n / 2) + 1 else 0

/-- ⌊log2 n⌋ for n ≥ 1. -/
def natLog2 (n : Nat) : Nat := log2fuel n n

/-- Round half to even of num / den (den > 0): the IEEE-754 default
rounding of an exact nonnegative ratio to an integer. -/
def rhe (num den : Nat) : Nat :=
  let q := num / den
  let r := num % den
  if 2 * r < den then q
  else if den < 2 * r then q + 1
  else if q % 2 = 0 then q else q + 1

/-- ⌊log2 (a / b)⌋ for positive a and b. -/
def floorLog2 (a b : Nat) : Int :=
  let k : Int := (natLog2 a : Int) - (natLog2 b : Int)
  if 0 ≤ k then (if b * 2 ^ k.toNat ≤ a then k else k - 1)
  else (if b ≤ a * 2 ^ (-k).toNat then k else k - 1)

/-- The IEEE-754 binary64 value nearest to a / b (for a, b > 0), returned
as (m, e) with value m * 2 ^ e: 53-bit mantissa scaled into [2^52, 2^53),
round to nearest, ties to even.  The exponent is unbounded: overflow and
subnormals, unreachable for the progress percentages of any feasible file
count, are not modelled. -/
def nearestDouble (a b : Nat) : Nat × Int :=
  let e : Int := floorLog2 a b - 52
  if 0 ≤ e then (rhe a (b * 2 ^ e.toNat), e)
  else (rhe (a * 2 ^ (-e).toNat) b, e)

/-- The progress percentage passed to the callback at iteration i:
int((i + 1) / file_count * 100) exactly as CPython evaluates it — the
correctly rounded binary64 quotient of the two integers, then the
correctly rounded binary64 product with the exact constant 100.0, then
int() truncation toward zero (the value is nonnegative, so truncation is
the floor).  file_count = 0 would raise ZeroDivisionError in Python; the
generate_vcf_files loop never evaluates the expression then, and the model
returns 0 in that unreachable case. -/
def progressValue (file_count i : Nat) : Int :=
  if file_count = 0 then 0
  else
    let d1 := nearestDouble (i + 1) file_count
    let d2 :=
      if 0 ≤ d1.2 then nearestDouble (d1.1 * 100 * 2 ^ d1.2.toNat) 1
      else nearestDouble (d1.1 * 100) (2 ^ (-d1.2).toNat)
    if 0 ≤ d2.2 then ((d2.1 * 2 ^ d2.2.toNat : Nat) : Int)
    else ((d2.1 / 2 ^ (-d2.2).toNat : Nat) : Int)

/-- str.format with format string ":03d" on a natural: decimal digits,
zero-padded on the left to width 3. -/
def format03d (n : Nat) : String :=
  let s := toString n
  if s.length < 3 then String.mk (List.replicate (3 - s.length) '0') ++ s else s

/-- The filename computed at iteration i of VCFGenerator.generate_vcf_files.
timestamp is the local-time string bound before the loop, present only when
naming_mode was exactly "timestamp"; referencing it unbound in the else
branch raises NameError (UnboundLocalError). -/
def filenameFor (naming_mode filename_pfx : String) (timestamp : Option String)
    (start_number : Nat) (fmt : Nat → String) (i : Nat) : Except String String :=
  if naming_mode = "custom_number" then
    Except.ok (filename_pfx ++ "_" ++ fmt (start_number + i) ++ ".vcf")
  else
    match timestamp with
    | some ts => Except.ok (filename_pfx ++ "_" ++ ts ++ "_" ++ format03d (i + 1) ++ ".vcf")
    | none => Except.error "NameError: name timestamp is not defined"

/-- The for loop of VCFGenerator.generate_vcf_files.  fname computes the
filename for an iteration, writeOk is the success of create_vcf_file for the
iteration (write failures are caught there and reported as False), and the
third state component records the values passed to the progress callback when
one is supplied.  r is the number of iterations left and i the current
iteration index. -/
def vcfLoop (fname : Nat → Except String String) (output_dir : String)
    (writeOk : Nat → Bool) (hasCallback : Bool) (file_count : Nat) :
    Nat → Nat → List String × List String × List Int →
    Except String (List String × List String × List Int)
  | 0, _, st => Except.ok st
  | Nat.succ r, i, (created, failed, progress) =>
    match fname i with
    | Except.error e => Except.error e
    | Except.ok filename =>
      let filepath := output_dir ++ "/" ++ filename
      let created2 := if writeOk i then created ++ [filepath] else created
      let failed2 := if writeOk i then failed else failed ++ [filepath]
      let progress2 := if hasCallback then progress ++ [progressValue file_count i]
                       else progress
      vcfLoop fname output_dir writeOk hasCallback file_count r (i + 1)
        (created2, failed2, progress2)

/-- VCFGenerator.generate_vcf_files.  dirOk is the outcome of creating the
output directory when needed; ts is the strftime timestamp string computed
when naming_mode is "timestamp".  Returns the batch result together with the
list of progress percentages passed to the callback, or the text of an
uncaught exception. -/
def generate_vcf_files (file_count contacts_per_file : Nat)
    (output_dir filename_pfx : String) (hasCallback : Bool) (naming_mode : String)
    (start_number : Nat) (fmt : Nat → String) (dirOk : Bool) (ts : String)
    (writeOk : Nat → Bool) : Except String (BatchResult × List Int) :=
  if ¬ dirOk then
    Except.ok ({ success := false, files_created := 0, files_failed := 0,
                 created_files := [], failed_files := [], output_directory := output_dir,
                 total_contacts := 0, error := some "无法创建输出目录" }, [])
  else
    let timestamp : Option String := if naming_mode = "timestamp" then some ts else none
    match vcfLoop (filenameFor naming_mode filename_pfx timestamp start_number fmt)
        output_dir writeOk hasCallback file_count file_count 0 ([], [], []) with
    | Except.error e => Except.error e
    | Except.ok (created, failed, progress) =>
      Except.ok ({ success := failed.isEmpty, files_created := created.length,
                   files_failed := failed.length, created_files := created,
                   failed_files := failed, output_directory := output_dir,
                   total_contacts := created.length * contacts_per_file,
                   error := none }, progress)

/-! ## Helper lemmas -/

theorem string_length_data (s : String) : s.length = s.data.length := rfl

theorem take_append_of_le (p s : String) (n : Nat) (h : n ≤ p.length) :
    (p ++ s).take n = p.take n := by
  apply String.ext
  rw [String.data_take, String.data_append, String.data_take]
  exact List.take_append_of_le_length h

theorem take_length_append (p s : String) : (p ++ s).take p.length = p := by
  rw [take_append_of_le p s p.length (Nat.le_refl _)]
  apply String.ext
  rw [String.data_take, string_length_data, List.take_length]

theorem randomChoice_mem (l : List String) (k : Nat) (h : l ≠ []) : randomChoice l k ∈ l := by
  unfold randomChoice
  have hlen : 0 < l.length := List.length_pos.mpr h
  have hk : k % l.length < l.length := Nat.mod_lt _ hlen
  rw [List.getD_eq_getElem l "" hk]
  exact List.getElem_mem hk

theorem digitChar_isDigit (n : Nat) : (digitChar n).isDigit = true := by
  unfold digitChar
  generalize n % 10 = k
  rcases k with _|_|_|_|_|_|_|_|_|m <;> rfl

theorem randomSuffix_length (ds : Nat → Nat) (len : Nat) :
    (randomSuffix ds len).length = len := by
  simp [randomSuffix]

theorem randomSuffix_digits (ds : Nat → Nat) (len : Nat) :
    ∀ c ∈ (randomSuffix ds len).data, c.isDigit = true := by
  intro c hc
  unfold randomSuffix at hc
  simp only [String.data] at hc
  rw [List.mem_map] at hc
  obtain ⟨j, _, hj⟩ := hc
  rw [← hj]
  exact digitChar_isDigit (ds j)

theorem mobile_sub : ∀ q ∈ mobile_prefixes, q ∈ prefixes := by decide

theorem unicom_sub : ∀ q ∈ unicom_prefixes, q ∈ prefixes := by decide

theorem telecom_sub : ∀ q ∈ telecom_prefixes, q ∈ prefixes := by decide

theorem virtual_sub : ∀ q ∈ virtual_prefixes, q ∈ prefixes := by decide

theorem prefixes_wf : ∀ p ∈ prefixes, p.length ≤ 11 ∧ p.data.all Char.isDigit := by decide

theorem choosePfx_mem (pfx carrier : Option String) (pick : Nat) (p : String)
    (h : choosePfx pfx carrier pick = Except.ok p) : p ∈ prefixes := by
  unfold choosePfx at h
  split at h
  · dsimp only at h
    split at h
    · injection h with h
      subst h
      assumption
    · cases h
  · split at h
    · injection h with h
      subst h
      exact mobile_sub _ (randomChoice_mem _ _ (by decide))
    · split at h
      · injection h with h
        subst h
        exact unicom_sub _ (randomChoice_mem _ _ (by decide))
      · split at h
        · injection h with h
          subst h
          exact telecom_sub _ (randomChoice_mem _ _ (by decide))
        · split at h
          · injection h with h
            subst h
            exact virtual_sub _ (randomChoice_mem _ _ (by decide))
          · injection h with h
            subst h
            exact randomChoice_mem _ _ (by decide)

/-! ## Claim C1 -/

/-- C1, counterexample: the claim that the four per-carrier lists partition
the full prefix list fails at the concrete prefix "1440", which is a member
of the full list but of none of the four per-carrier lists. -/
theorem C1_counterexample :
    "1440" ∈ prefixes ∧ "1440" ∉ mobile_prefixes ∧ "1440" ∉ unicom_prefixes ∧
    "1440" ∉ telecom_prefixes ∧ "1440" ∉ virtual_prefixes := by decide

/-- C1, amended: the four per-carrier lists are pairwise disjoint, every
per-carrier prefix is in the full list, and every prefix of the full list
except "1440" belongs to exactly one per-carrier list; "1440" belongs to
none. -/
theorem C1_partition_except_1440 :
    (∀ p : String, (p ∈ mobile_prefixes ∨ p ∈ unicom_prefixes ∨ p ∈ telecom_prefixes ∨
        p ∈ virtual_prefixes) → p ∈ prefixes) ∧
    (∀ p ∈ prefixes, p ≠ "1440" → carrierListsContaining p = 1) ∧
    carrierListsContaining "1440" = 0 := by
  refine ⟨?_, by decide, by decide⟩
  intro p hp
  rcases hp with h | h | h | h
  · exact mobile_sub p h
  · exact unicom_sub p h
  · exact telecom_sub p h
  · exact virtual_sub p h

/-- Witness for C1_partition_except_1440 at the concrete prefix "134". -/
theorem C1_partition_witness : carrierListsContaining "134" = 1 :=
  C1_partition_except_1440.2.1 "134" (by decide) (by decide)

/-! ## Claim C5 -/

/-- C5: every string returned by generate_phone_number has length exactly 11,
consists only of decimal digit characters, and has a leading substring equal
to some entry of the full prefix list. -/
theorem C5_phone_shape (pfx carrier : Option String) (pick : Nat) (ds : Nat → Nat)
    (s : String) (h : generate_phone_number pfx carrier pick ds = Except.ok s) :
    s.length = 11 ∧ (∀ c ∈ s.data, c.isDigit = true) ∧
    ∃ p ∈ prefixes, ∃ rest, s = p ++ rest := by
  unfold generate_phone_number at h
  cases hc : choosePfx pfx carrier pick with
  | error e => rw [hc] at h; cases h
  | ok chosen =>
    rw [hc] at h
    injection h with h
    subst h
    have hmem := choosePfx_mem _ _ _ _ hc
    have hwf := prefixes_wf chosen hmem
    refine ⟨?_, ?_, chosen, hmem, _, rfl⟩
    · rw [String.length_append, randomSuffix_length]
      omega
    · intro c hcc
      rw [String.data_append, List.mem_append] at hcc
      rcases hcc with h1 | h2
      · exact List.all_eq_true.mp hwf.2 c h1
      · exact randomSuffix_digits _ _ c h2

/-- Witness for C5_phone_shape at the explicit prefix "138" and all-zero
digit draws. -/
theorem C5_phone_shape_witness :
    ("13800000000" : String).length = 11 ∧
    (∀ c ∈ ("13800000000" : String).data, c.isDigit = true) ∧
    ∃ p ∈ prefixes, ∃ rest, ("13800000000" : String) = p ++ rest :=
  C5_phone_shape (some "138") none 0 (fun _ => 0) "13800000000" rfl

/-! ## Claim C6 -/

/-- C6, counterexample: the empty string is a prefix argument that is not a
member of the full prefix list, yet generate_phone_number does not fail on
it: the empty string is falsy in Python, so the validation branch is skipped
and a random number is generated. -/
theorem C6_counterexample :
    generate_phone_number (some "") none 0 (fun _ => 0) = Except.ok "13400000000" ∧
    "" ∉ prefixes :=
  ⟨rfl, by decide⟩

/-- C6, amended: for every non-empty prefix argument that is not a member of
the full prefix list, generate_phone_number fails immediately with the
unsupported-prefix ValueError, without retrying. -/
theorem C6_invalid_error (p : String) (hne : p ≠ "") (hmem : p ∉ prefixes)
    (carrier : Option String) (pick : Nat) (ds : Nat → Nat) :
    generate_phone_number (some p) carrier pick ds =
      Except.error ("不支持的号段前缀: " ++ p) := by
  unfold generate_phone_number choosePfx
  have ht : pyTruthy (some p) = true := by
    simp [pyTruthy, hne]
  simp only [ht, Option.getD_some, if_true]
  rw [if_neg hmem]

/-- Witness for C6_invalid_error at the concrete invalid prefix "123". -/
theorem C6_invalid_error_witness :
    generate_phone_number (some "123") none 0 (fun _ => 0) =
      Except.error ("不支持的号段前缀: " ++ "123") :=
  C6_invalid_error "123" (by decide) (by decide) none 0 (fun _ => 0)

/-! ## Claim C3 -/

theorem carrierPfxList_len3 (c : Carrier) : ∀ q ∈ carrierPfxList c, q.length = 3 := by
  cases c <;> decide

theorem unicom_not_mobile : ∀ q ∈ unicom_prefixes, q ∉ mobile_prefixes := by decide

theorem telecom_not_mobile : ∀ q ∈ telecom_prefixes, q ∉ mobile_prefixes := by decide

theorem telecom_not_unicom : ∀ q ∈ telecom_prefixes, q ∉ unicom_prefixes := by decide

theorem virtual_not_mobile : ∀ q ∈ virtual_prefixes, q ∉ mobile_prefixes := by decide

theorem virtual_not_unicom : ∀ q ∈ virtual_prefixes, q ∉ unicom_prefixes := by decide

theorem virtual_not_telecom : ∀ q ∈ virtual_prefixes, q ∉ telecom_prefixes := by decide

theorem get_carrier_name_cond (p s : String) (h3 : 3 ≤ p.length) :
    ¬(p ++ s = "" ∨ (p ++ s).length < 3) := by
  have hlen : (p ++ s).length = p.length + s.length := String.length_append p s
  push_neg
  refine ⟨?_, by omega⟩
  intro he
  rw [he] at hlen
  have h0 : ("" : String).length = 0 := rfl
  rw [h0] at hlen
  omega

theorem classify_append (c : Carrier) (p s : String) (hp : p ∈ carrierPfxList c) :
    get_carrier_name (p ++ s) = carrierDisplayName c := by
  have hlen3 : p.length = 3 := carrierPfxList_len3 c p hp
  have htake : (p ++ s).take 3 = p := by
    rw [← hlen3, take_length_append]
  unfold get_carrier_name
  rw [if_neg (get_carrier_name_cond p s (by omega)), htake]
  cases c with
  | mobile =>
    simp only [carrierPfxList] at hp
    rw [if_pos hp]
    rfl
  | unicom =>
    simp only [carrierPfxList] at hp
    rw [if_neg (unicom_not_mobile p hp), if_pos hp]
    rfl
  | telecom =>
    simp only [carrierPfxList] at hp
    rw [if_neg (telecom_not_mobile p hp), if_neg (telecom_not_unicom p hp), if_pos hp]
    rfl
  | virtual =>
    simp only [carrierPfxList] at hp
    rw [if_neg (virtual_not_mobile p hp), if_neg (virtual_not_unicom p hp),
      if_neg (virtual_not_telecom p hp), if_pos hp]
    rfl

theorem choosePfx_carrier (c : Carrier) (pick : Nat) :
    choosePfx none (some (carrierArg c)) pick =
      Except.ok (randomChoice (carrierPfxList c) pick) := by
  cases c <;> rfl

theorem carrierPfxList_ne_nil (c : Carrier) : carrierPfxList c ≠ [] := by
  cases c <;> decide

/-- C3: a number generated with a carrier argument classifies back to that
carrier's display name; a number generated from the 4-character "1440"
prefix (reachable only through an explicit prefix argument or an
unconstrained draw) is classified by its first 3 characters as unknown
carrier, not as any generating carrier. -/
theorem C3_roundtrip :
    (∀ (c : Carrier) (pick : Nat) (ds : Nat → Nat) (s : String),
        generate_phone_number none (some (carrierArg c)) pick ds = Except.ok s →
        get_carrier_name s = carrierDisplayName c) ∧
    (∀ (pick : Nat) (ds : Nat → Nat) (s : String),
        generate_phone_number (some "1440") none pick ds = Except.ok s →
        get_carrier_name s = "未知运营商") := by
  constructor
  · intro c pick ds s h
    unfold generate_phone_number at h
    rw [choosePfx_carrier] at h
    injection h with h
    subst h
    exact classify_append c _ _ (randomChoice_mem _ _ (carrierPfxList_ne_nil c))
  · intro pick ds s h
    unfold generate_phone_number at h
    have hc : choosePfx (some "1440") none pick = Except.ok "1440" := rfl
    rw [hc] at h
    injection h with h
    subst h
    have htake : (("1440" : String) ++ randomSuffix ds (11 - ("1440" : String).length)).take 3
        = ("1440" : String).take 3 := take_append_of_le _ _ 3 (by decide)
    unfold get_carrier_name
    rw [if_neg (get_carrier_name_cond _ _ (by decide)), htake]
    decide

/-- Witness for C3_roundtrip: the mobile draw with index 0 and all-zero
digits produces "13400000000", classified as 中国移动, and the explicit
"1440" draw produces "14400000000", classified as 未知运营商. -/
theorem C3_roundtrip_witness :
    get_carrier_name "13400000000" = carrierDisplayName Carrier.mobile ∧
    get_carrier_name "14400000000" = "未知运营商" :=
  ⟨C3_roundtrip.1 Carrier.mobile 0 (fun _ => 0) "13400000000" rfl,
   C3_roundtrip.2 0 (fun _ => 0) "14400000000" rfl⟩

/-! ## Claim C7 -/

theorem generate_names_valid (num : Nat) (gender : String) (draws : Nat → NameDraw)
    (g : NameDraw → String) (hg : ∀ d, nameFor gender d = some (g d)) :
    generate_names num gender draws = (List.range num).map (fun k => g (draws k)) := by
  unfold generate_names
  split
  · rename_i h0
    rw [h0]
    rfl
  · simp only [hg, List.reduceOption, List.filterMap_map]
    exact congrFun (List.filterMap_eq_map (fun k => g (draws k))) (List.range num)

theorem xing_ne_nil : xing ≠ [] := by decide

theorem make_boy_name_surname (d : NameDraw) :
    ∃ x ∈ xing, ∃ rest, make_boy_name d = x ++ rest :=
  ⟨randomChoice xing d.surnameIdx, randomChoice_mem _ _ xing_ne_nil, _, rfl⟩

theorem make_girl_name_surname (d : NameDraw) :
    ∃ x ∈ xing, ∃ rest, make_girl_name d = x ++ rest :=
  ⟨randomChoice xing d.surnameIdx, randomChoice_mem _ _ xing_ne_nil, _, rfl⟩

/-- C7: for every count and recognised gender, generate_names returns exactly
count strings (count = 0 gives the empty sequence), and every returned string
starts with an entry from the surname table. -/
theorem C7_generate_names (num : Nat) (gender : String) (draws : Nat → NameDraw)
    (hg : gender = "boy" ∨ gender = "girl" ∨ gender = "all") :
    (generate_names num gender draws).length = num ∧
    ∀ name ∈ generate_names num gender draws,
      ∃ x ∈ xing, ∃ rest, name = x ++ rest := by
  rcases hg with h | h | h <;> subst h
  · rw [generate_names_valid num "boy" draws make_boy_name (fun d => rfl)]
    refine ⟨by simp, ?_⟩
    intro name hn
    rw [List.mem_map] at hn
    obtain ⟨k, _, hk⟩ := hn
    rw [← hk]
    exact make_boy_name_surname (draws k)
  · rw [generate_names_valid num "girl" draws make_girl_name (fun d => rfl)]
    refine ⟨by simp, ?_⟩
    intro name hn
    rw [List.mem_map] at hn
    obtain ⟨k, _, hk⟩ := hn
    rw [← hk]
    exact make_girl_name_surname (draws k)
  · rw [generate_names_valid num "all" draws
      (fun d => if d.genderCoin % 2 + 1 = 1 then make_boy_name d else make_girl_name d)
      (fun d => rfl)]
    refine ⟨by simp, ?_⟩
    intro name hn
    rw [List.mem_map] at hn
    obtain ⟨k, _, hk⟩ := hn
    rw [← hk]
    split
    · exact make_boy_name_surname (draws k)
    · exact make_girl_name_surname (draws k)

/-- Witness for C7_generate_names: two "all"-gender draws with fixed
randomness. -/
theorem C7_generate_names_witness :
    (generate_names 2 "all" (fun _ => ⟨1, 0, true, 0⟩)).length = 2 ∧
    ∀ name ∈ generate_names 2 "all" (fun _ => ⟨1, 0, true, 0⟩),
      ∃ x ∈ xing, ∃ rest, name = x ++ rest :=
  C7_generate_names 2 "all" (fun _ => ⟨1, 0, true, 0⟩) (Or.inr (Or.inr rfl))

/-! ## Claim C4 -/

theorem genLoop_calls_le (gen : Nat → String) (count : Nat) (unique : Bool) :
    ∀ (fuel calls : Nat) (acc : List String),
      (genLoop gen count unique fuel calls acc).2 ≤ calls + fuel := by
  intro fuel
  induction fuel with
  | zero =>
    intro calls acc
    simp [genLoop]
  | succ n ih =>
    intro calls acc
    rw [genLoop]
    split
    · exact le_trans (ih (calls + 1) _) (by omega)
    · simp

theorem genLoop_length_le (gen : Nat → String) (count : Nat) (unique : Bool) :
    ∀ (fuel calls : Nat) (acc : List String), acc.length ≤ count →
      (genLoop gen count unique fuel calls acc).1.length ≤ count := by
  intro fuel
  induction fuel with
  | zero =>
    intro calls acc h
    simpa [genLoop] using h
  | succ n ih =>
    intro calls acc h
    rw [genLoop]
    split
    · rename_i hlt
      apply ih
      split
      · exact h
      · simpa using hlt
    · simpa using h

theorem genLoop_nodup (gen : Nat → String) (count : Nat) :
    ∀ (fuel calls : Nat) (acc : List String), acc.Nodup →
      (genLoop gen count true fuel calls acc).1.Nodup := by
  intro fuel
  induction fuel with
  | zero =>
    intro calls acc h
    simpa [genLoop] using h
  | succ n ih =>
    intro calls acc h
    rw [genLoop]
    split
    · apply ih
      split
      · exact h
      · rename_i hnot
        refine List.nodup_cons.mpr ⟨?_, h⟩
        intro hmem
        exact hnot ⟨rfl, hmem⟩
    · simpa using h

theorem genLoop_false_length (gen : Nat → String) (count : Nat) :
    ∀ (fuel calls : Nat) (acc : List String), acc.length ≤ count →
      (genLoop gen count false fuel calls acc).1.length = min (acc.length + fuel) count := by
  intro fuel
  induction fuel with
  | zero =>
    intro calls acc h
    simp [genLoop]
    omega
  | succ n ih =>
    intro calls acc h
    rw [genLoop]
    split
    · rename_i hlt
      dsimp only
      rw [if_neg (by simp), ih (calls + 1) _ (by simpa using hlt)]
      simp only [List.length_cons]
      omega
    · rename_i hge
      simp only [List.length_reverse]
      omega

/-- C4: with unique=True, generate_phone_numbers makes at most count * 10
calls to the single-number generator and returns a duplicate-free list of at
most count numbers, raising no error when the retry cap truncates the batch;
with unique=False it returns exactly count numbers. -/
theorem C4_batch (gen : Nat → String) (count : Nat) (h : 0 < count) :
    (generate_phone_numbers gen count true).2 ≤ count * 10 ∧
    (generate_phone_numbers gen count true).1.Nodup ∧
    (generate_phone_numbers gen count true).1.length ≤ count ∧
    (generate_phone_numbers gen count false).1.length = count := by
  unfold generate_phone_numbers
  rw [if_neg (show ¬(count = 0) by omega), if_neg (show ¬(count = 0) by omega)]
  refine ⟨?_, ?_, ?_, ?_⟩
  · simpa using genLoop_calls_le gen count true (count * 10) 0 []
  · exact genLoop_nodup gen count (count * 10) 0 [] List.nodup_nil
  · exact genLoop_length_le gen count true (count * 10) 0 [] (by simp)
  · rw [genLoop_false_length gen count (count * 10) 0 [] (by simp)]
    simp only [List.length_nil, Nat.zero_add]
    have : count ≤ count * 10 := by omega
    omega

/-- Witness for C4_batch with count = 3 and a constant generator stream. -/
theorem C4_batch_witness :
    (generate_phone_numbers (fun _ => "13800000000") 3 true).2 ≤ 3 * 10 ∧
    (generate_phone_numbers (fun _ => "13800000000") 3 true).1.Nodup ∧
    (generate_phone_numbers (fun _ => "13800000000") 3 true).1.length ≤ 3 ∧
    (generate_phone_numbers (fun _ => "13800000000") 3 false).1.length = 3 :=
  C4_batch (fun _ => "13800000000") 3 (by decide)

/-! ## Claim C8 -/

/-- C8: create_contact_vcf_entry is a pure function of (name, phone): for
every non-empty name (Python raises IndexError on the empty name) it yields
exactly the fixed vCard 3.0 template, with the N: field split as
first-character-of-name;rest-of-name;;; and, when the phone has exactly 11
characters, the TYPE=VOICE line grouped as 3-4-4 digits. -/
theorem C8_vcf_entry (name phone : String) (hne : name ≠ "") :
    create_contact_vcf_entry name phone = Except.ok (vcfEntryTemplate name phone) := by
  unfold create_contact_vcf_entry vcfEntryTemplate
  rw [if_neg hne]
  dsimp only
  refine congrArg Except.ok ?_
  have h1 : ("BEGIN:VCARD\nVERSION:3.0\nFN:" : String)
      = "BEGIN:VCARD\n" ++ "VERSION:3.0\n" ++ "FN:" := rfl
  have h2 : ("\nN:" : String) = "\n" ++ "N:" := rfl
  have h3 : (";;;\nTEL;CELL:" : String) = ";;;\n" ++ "TEL;CELL:" := rfl
  have h4 : ("\nTEL;CELL;TYPE=VOICE:" : String) = "\n" ++ "TEL;CELL;TYPE=VOICE:" := rfl
  have h5 : ("\nEND:VCARD\n" : String) = "\n" ++ "END:VCARD\n" := rfl
  rw [h1, h2, h3, h4, h5]
  simp only [String.append_assoc]

/-- Witness for C8_vcf_entry at a concrete contact. -/
theorem C8_vcf_entry_witness :
    create_contact_vcf_entry "王小明" "13812345678" =
      Except.ok (vcfEntryTemplate "王小明" "13812345678") :=
  C8_vcf_entry "王小明" "13812345678" (by decide)

/-! ## The generate_vcf_files loop in closed form -/

theorem vcfLoop_total (fname : Nat → Except String String) (g : Nat → String)
    (hg : ∀ j, fname j = Except.ok (g j)) (odir : String) (wOk : Nat → Bool)
    (cb : Bool) (fc : Nat) :
    ∀ (r i : Nat) (created failed : List String) (progress : List Int),
      vcfLoop fname odir wOk cb fc r i (created, failed, progress) =
      Except.ok
        (created ++ ((List.range' i r).filter (fun j => wOk j)).map
            (fun j => odir ++ "/" ++ g j),
         failed ++ ((List.range' i r).filter (fun j => !wOk j)).map
            (fun j => odir ++ "/" ++ g j),
         progress ++ (if cb then (List.range' i r).map (fun j => progressValue fc j)
                      else [])) := by
  intro r
  induction r with
  | zero =>
    intro i c f p
    simp [vcfLoop]
  | succ n ih =>
    intro i c f p
    rw [vcfLoop, hg i]
    dsimp only
    rw [ih (i + 1)]
    rw [List.range'_succ, List.filter_cons, List.filter_cons, List.map_cons]
    cases hw : wOk i <;> cases cb <;>
      simp [hw, List.append_assoc]

theorem vcfLoop_err (fname : Nat → Except String String) (odir : String)
    (wOk : Nat → Bool) (cb : Bool) (fc r i : Nat) (st : List String × List String × List Int)
    (e : String) (hr : 0 < r) (he : fname i = Except.error e) :
    vcfLoop fname odir wOk cb fc r i st = Except.error e := by
  obtain ⟨m, rfl⟩ : ∃ m, r = m + 1 := ⟨r - 1, by omega⟩
  obtain ⟨c, f, p⟩ := st
  rw [vcfLoop, he]

/-! ## Claim C2 -/

/-- C2, counterexample: with file_count = 3 the program's callback trace is
[33, 66, 100] — int() truncates the binary64 percentage toward zero — while
the claimed round((i + 1) / file_count * 100) at iteration i = 1 is 67, not
66.  Further, at file_count = 50, iteration i = 28, the program evaluates
29 / 50 * 100 to the binary64 value 57.99999999999999... and passes
int of it = 57, while the claimed rounding gives 58. -/
theorem C2_counterexample :
    (generate_vcf_files 3 10 "vcf_output" "通讯录" true "timestamp" 1 format03d true
        "20240101_000000" (fun _ => true)).map (fun rp => rp.2)
      = Except.ok [33, 66, 100] ∧
    round (((1 : ℚ) + 1) / 3 * 100) = 67 ∧
    progressValue 50 28 = 57 ∧
    round (((28 : ℚ) + 1) / 50 * 100) = 58 := by
  refine ⟨?_, ?_, by decide, ?_⟩
  · unfold generate_vcf_files
    rw [if_neg (by simp)]
    dsimp only
    rw [if_pos rfl]
    rw [vcfLoop_total
      (filenameFor "timestamp" "通讯录" (some "20240101_000000") 1 format03d)
      (fun i => "通讯录" ++ "_" ++ "20240101_000000" ++ "_" ++ format03d (i + 1) ++ ".vcf")
      (fun j => rfl) _ _ _ _ 3 0 [] [] []]
    have e0 : progressValue 3 0 = 33 := by decide
    have e1 : progressValue 3 1 = 66 := by decide
    have e2 : progressValue 3 2 = 100 := by decide
    simp [List.range', e0, e1, e2, Except.map]
  · have h : ((1 : ℚ) + 1) / 3 * 100 = 200 / 3 := by norm_num
    rw [h, round_eq, show (200 : ℚ) / 3 + 1 / 2 = 403 / 6 by norm_num]
    apply Int.floor_eq_iff.mpr
    constructor <;> norm_num
  · have h : ((28 : ℚ) + 1) / 50 * 100 = 58 := by norm_num
    rw [h]
    exact round_intCast 58

/-- C2, amended: for every file_count ≥ 1, a supplied progress callback and
a valid naming mode, generate_vcf_files invokes the callback exactly once
after each file iteration i (0-based, in order), passing
int((i + 1) / file_count * 100) as evaluated in binary64 float arithmetic —
a truncation toward zero of the (approximately computed) percentage, not a
rounding. -/
theorem C2_progress_truncated (fc cpf sn : Nat) (odir pfx_s ts mode : String)
    (fmt : Nat → String) (wOk : Nat → Bool)
    (hfc : 0 < fc) (hmode : mode = "timestamp" ∨ mode = "custom_number") :
    ∃ r : BatchResult,
      generate_vcf_files fc cpf odir pfx_s true mode sn fmt true ts wOk
        = Except.ok (r, (List.range fc).map (fun i => progressValue fc i)) := by
  unfold generate_vcf_files
  rw [if_neg (by simp)]
  dsimp only
  rcases hmode with hm | hm <;> subst hm
  · rw [if_pos rfl]
    rw [vcfLoop_total (filenameFor "timestamp" pfx_s (some ts) sn fmt)
      (fun i => pfx_s ++ "_" ++ ts ++ "_" ++ format03d (i + 1) ++ ".vcf")
      (fun j => rfl) _ _ _ _ fc 0 [] [] []]
    dsimp only [List.nil_append]
    rw [List.range_eq_range']
    exact ⟨_, rfl⟩
  · rw [if_neg (by decide)]
    rw [vcfLoop_total (filenameFor "custom_number" pfx_s none sn fmt)
      (fun i => pfx_s ++ "_" ++ fmt (sn + i) ++ ".vcf")
      (fun j => rfl) _ _ _ _ fc 0 [] [] []]
    dsimp only [List.nil_append]
    rw [List.range_eq_range']
    exact ⟨_, rfl⟩

/-- Witness for C2_progress_truncated at file_count = 3 in timestamp mode. -/
theorem C2_progress_truncated_witness :
    ∃ r : BatchResult,
      generate_vcf_files 3 10 "vcf_output" "通讯录" true "timestamp" 1 format03d true
          "20240101_000000" (fun _ => true)
        = Except.ok (r, (List.range 3).map (fun i => progressValue 3 i)) :=
  C2_progress_truncated 3 10 1 "vcf_output" "通讯录" "20240101_000000" "timestamp"
    format03d (fun _ => true) (by decide) (Or.inl rfl)

/-! ## Claim C9 -/

/-- C9: in custom_number mode the file of iteration i (0-based) is named
filename_prefix_{format(start_number + i)}.vcf, and the batch result reports
total_contacts = files_created * contacts_per_file — for any per-file write
outcomes, and in particular on full success files_created = file_count with
the expected file list and total_contacts = file_count * contacts_per_file. -/
theorem C9_custom_number (fc cpf sn : Nat) (odir pfx_s ts : String)
    (fmt : Nat → String) (cb : Bool) :
    (∀ wOk : Nat → Bool, ∃ r : BatchResult, ∃ ps : List Int,
        generate_vcf_files fc cpf odir pfx_s cb "custom_number" sn fmt true ts wOk
          = Except.ok (r, ps) ∧ r.total_contacts = r.files_created * cpf) ∧
    (∃ r : BatchResult, ∃ ps : List Int,
        generate_vcf_files fc cpf odir pfx_s cb "custom_number" sn fmt true ts
            (fun _ => true)
          = Except.ok (r, ps) ∧
        r.created_files =
          (List.range fc).map
            (fun i => odir ++ "/" ++ (pfx_s ++ "_" ++ fmt (sn + i) ++ ".vcf")) ∧
        r.files_created = fc ∧ r.files_failed = 0 ∧ r.success = true ∧
        r.total_contacts = fc * cpf) := by
  constructor
  · intro wOk
    unfold generate_vcf_files
    rw [if_neg (by simp)]
    dsimp only
    rw [if_neg (by decide)]
    rw [vcfLoop_total (filenameFor "custom_number" pfx_s none sn fmt)
      (fun i => pfx_s ++ "_" ++ fmt (sn + i) ++ ".vcf")
      (fun j => rfl) _ _ _ _ fc 0 [] [] []]
    exact ⟨_, _, rfl, rfl⟩
  · unfold generate_vcf_files
    rw [if_neg (by simp)]
    dsimp only
    rw [if_neg (by decide)]
    rw [vcfLoop_total (filenameFor "custom_number" pfx_s none sn fmt)
      (fun i => pfx_s ++ "_" ++ fmt (sn + i) ++ ".vcf")
      (fun j => rfl) _ _ _ _ fc 0 [] [] []]
    dsimp only [List.nil_append]
    refine ⟨_, _, rfl, ?_, ?_, ?_, ?_, ?_⟩
    · simp [List.range_eq_range']
    · simp
    · simp
    · simp
    · simp [List.range_eq_range']

/-- Witness for C9_custom_number at the example scenario: file_count = 3,
start_number = 5, 3-digit zero padding. -/
theorem C9_custom_number_witness :
    ∃ r : BatchResult, ∃ ps : List Int,
      generate_vcf_files 3 10 "vcf_output" "通讯录" false "custom_number" 5 format03d true
          "20240101_000000" (fun _ => true)
        = Except.ok (r, ps) ∧
      r.created_files =
        (List.range 3).map
          (fun i => "vcf_output" ++ "/" ++ ("通讯录" ++ "_" ++ format03d (5 + i) ++ ".vcf")) ∧
      r.files_created = 3 ∧ r.files_failed = 0 ∧ r.success = true ∧
      r.total_contacts = 3 * 10 :=
  (C9_custom_number 3 10 5 "vcf_output" "通讯录" "20240101_000000" format03d false).2

/-! ## Claim C10 -/

/-- C10: called with file_count ≥ 1 and a naming_mode that is neither
"timestamp" nor "custom_number", generate_vcf_files raises an unhandled
NameError — timestamp is referenced in the filename branch but bound only
when naming_mode is exactly "timestamp" — instead of returning a batch
result. -/
theorem C10_name_error (fc cpf sn : Nat) (odir pfx_s ts mode : String)
    (fmt : Nat → String) (cb : Bool) (wOk : Nat → Bool)
    (h1 : mode ≠ "timestamp") (h2 : mode ≠ "custom_number") (hfc : 0 < fc) :
    generate_vcf_files fc cpf odir pfx_s cb mode sn fmt true ts wOk =
      Except.error "NameError: name timestamp is not defined" := by
  unfold generate_vcf_files
  rw [if_neg (by simp)]
  dsimp only
  rw [if_neg h1]
  rw [vcfLoop_err _ _ _ _ _ _ _ _ _ hfc (by unfold filenameFor; rw [if_neg h2])]

/-- Witness for C10_name_error at the concrete naming mode "random". -/
theorem C10_name_error_witness :
    generate_vcf_files 1 10 "vcf_output" "通讯录" false "random" 1 format03d true
        "20240101_000000" (fun _ => true) =
      Except.error "NameError: name timestamp is not defined" :=
  C10_name_error 1 10 1 "vcf_output" "通讯录" "20240101_000000" "random" format03d
    false (fun _ => true) (by decide) (by decide) (by decide)

end InfoGen
